import Mathlib

/-!
Shallow embedding of the vacation / leave-management core of the
Projeto_GestaoRH repository, and proofs of the frozen claims about it.

The embedded code is:
  * `src/src/models/afastamento.py`  (leave records, `dias_afastamento`)
  * `src/src/models/funcionario.py`  (employees; only the fields the
    verified functions read are kept)
  * `src/src/utils/ferias.py`        (`FeriasManager`)
  * `src/src/utils/validators.py`    (`Validators.validar_cpf`,
    `formatar_cpf`, `formatar_telefone`)
  * `src/src/config.py`              (the two vacation constants, at their
    defaults)

Python `datetime` values are modelled as calendar dates (the code only ever
compares and subtracts dates entered as whole days).  `datetime.now()` is an
implicit input of several functions; it is made an explicit `agora`
parameter.  Date subtraction (`(b - a).days`) goes through a days-since-epoch
count computed by the standard civil-calendar conversion; date comparison
(`<`, `>`) is field-lexicographic, exactly as CPython compares `datetime`
objects.
-/

namespace GestaoRH

/-- A calendar date: the `year`, `month`, `day` fields of a Python
`datetime` (time-of-day is irrelevant to the embedded code). -/
structure Date where
  year : Int
  month : Int
  day : Int
deriving Repr, DecidableEq

/-- Days since 1970-01-01 (civil-calendar day number, Hinnant's
`days_from_civil`): the day count that underlies Python `datetime`
subtraction. -/
def Date.toRataDie (dt : Date) : Int :=
  let y : Int := if dt.month ≤ 2 then dt.year - 1 else dt.year
  let era : Int := Int.fdiv y 400
  let yoe : Int := y - era * 400
  let mp : Int := if 2 < dt.month then dt.month - 3 else dt.month + 9
  let doy : Int := Int.fdiv (153 * mp + 2) 5 + dt.day - 1
  let doe : Int := yoe * 365 + Int.fdiv yoe 4 - Int.fdiv yoe 100 + doy
  era * 146097 + doe - 719468

/-- Inverse of `Date.toRataDie` (Hinnant's `civil_from_days`): models
`datetime + timedelta(days = n)`. -/
def Date.ofRataDie (z0 : Int) : Date :=
  let z : Int := z0 + 719468
  let era : Int := Int.fdiv z 146097
  let doe : Int := z - era * 146097
  let yoe : Int :=
    Int.fdiv (doe - Int.fdiv doe 1460 + Int.fdiv doe 36524 - Int.fdiv doe 146096) 365
  let y : Int := yoe + era * 400
  let doy : Int := doe - (365 * yoe + Int.fdiv yoe 4 - Int.fdiv yoe 100)
  let mp : Int := Int.fdiv (5 * doy + 2) 153
  let d : Int := doy - Int.fdiv (153 * mp + 2) 5 + 1
  let m : Int := if mp < 10 then mp + 3 else mp - 9
  ⟨if m ≤ 2 then y + 1 else y, m, d⟩

/-- `(b - a).days` for the (midnight) datetimes the code subtracts. -/
def Date.subDays (b a : Date) : Int := b.toRataDie - a.toRataDie

/-- `a + timedelta(days = n)`. -/
def Date.addDays (a : Date) (n : Int) : Date := Date.ofRataDie (a.toRataDie + n)

/-- Python `datetime` order: lexicographic on the (year, month, day)
fields. -/
def Date.lt (a b : Date) : Prop :=
  a.year < b.year ∨
    (a.year = b.year ∧ (a.month < b.month ∨ (a.month = b.month ∧ a.day < b.day)))

instance (a b : Date) : Decidable (Date.lt a b) := by
  unfold Date.lt; exact inferInstance

/-- `DIAS_FERIAS_ANUAL` of `src/config.py` at its default (30). -/
def DIAS_FERIAS_ANUAL : Int := 30

/-- `MESES_PARA_FERIAS` of `src/config.py` at its default (12). -/
def MESES_PARA_FERIAS : Int := 12

/-- The `Funcionario` dataclass (`src/models/funcionario.py`).  Only the
fields read by the verified functions are kept; `cpf`, `email`, `telefone`,
`endereco`, `loja`, `cargo`, `salario`, `ativo` and the timestamps are never
consulted by `FeriasManager`. -/
structure Funcionario where
  id : Option Int
  nome : String
  data_admissao : Option Date
deriving Repr, DecidableEq

/-- The `Afastamento` dataclass (`src/models/afastamento.py`).  The
`documento_anexo` and timestamp fields are never consulted by the verified
functions and are omitted. -/
structure Afastamento where
  id : Option Int
  funcionario_id : Int
  tipo : String
  data_inicio : Option Date
  data_fim : Option Date
  motivo : String
  observacoes : String
deriving Repr, DecidableEq

/-- `Afastamento.dias_afastamento`: `(data_fim - data_inicio).days + 1` when
both dates are set, else 0 (a `datetime` is always truthy in Python, `None`
falsy, so the guard `if self.data_inicio and self.data_fim` is exactly a
both-present test). -/
def Afastamento.dias_afastamento (a : Afastamento) : Int :=
  match a.data_inicio, a.data_fim with
  | some i, some f => Date.subDays f i + 1
  | _, _ => 0

/-- `FeriasManager.calcular_dias_ferias_disponiveis` (Python `//` is floor
division, hence `Int.fdiv`). -/
def FeriasManager.calcular_dias_ferias_disponiveis
    (funcionario : Funcionario) (agora : Date) : Int :=
  match funcionario.data_admissao with
  | none => 0
  | some adm =>
    let tempo_servico : Int :=
      (agora.year - adm.year) * 12 + (agora.month - adm.month)
    if tempo_servico < MESES_PARA_FERIAS then 0
    else Int.fdiv tempo_servico MESES_PARA_FERIAS * DIAS_FERIAS_ANUAL

/-- `FeriasManager.calcular_dias_ferias_usados`: the accumulating loop over
`afastamentos`, adding `dias_afastamento()` of each record whose `tipo` is
the literal string compared in the source. -/
def FeriasManager.calcular_dias_ferias_usados
    (funcionario : Funcionario) (afastamentos : List Afastamento) : Int :=
  afastamentos.foldl
    (fun dias_usados a =>
      if a.tipo = "Férias" then dias_usados + a.dias_afastamento else dias_usados)
    0

/-- `FeriasManager.calcular_dias_ferias_restantes`. -/
def FeriasManager.calcular_dias_ferias_restantes
    (funcionario : Funcionario) (afastamentos : List Afastamento)
    (agora : Date) : Int :=
  max 0
    (FeriasManager.calcular_dias_ferias_disponiveis funcionario agora -
      FeriasManager.calcular_dias_ferias_usados funcionario afastamentos)

/-- `FeriasManager.obter_proxima_data_ferias` (the source computes an unused
`meses_faltantes` local and then adds a flat `MESES_PARA_FERIAS * 30` days to
the hire date). -/
def FeriasManager.obter_proxima_data_ferias
    (funcionario : Funcionario) (agora : Date) : Option Date :=
  match funcionario.data_admissao with
  | none => none
  | some adm =>
    let tempo_servico : Int :=
      (agora.year - adm.year) * 12 + (agora.month - adm.month)
    if tempo_servico ≥ MESES_PARA_FERIAS then some agora
    else some (Date.addDays adm (MESES_PARA_FERIAS * 30))

/-- The insufficient-balance message of `FeriasManager.validar_ferias`,
verbatim. -/
def msg_saldo_insuficiente (dias_restantes dias_solicitados : Int) : String :=
  "Funcionário tem apenas " ++ toString dias_restantes ++
    " dias de férias disponíveis, mas solicitou " ++
    toString dias_solicitados ++ " dias."

/-- The conflict message of `FeriasManager.validar_ferias`, verbatim. -/
def msg_conflito (tipo : String) : String :=
  "Há um conflito com outro afastamento (" ++ tipo ++ ") no período solicitado."

/-- The success message of `FeriasManager.validar_ferias`, verbatim. -/
def msg_sucesso : String := "Férias validadas com sucesso."

/-- The conflict loop of `FeriasManager.validar_ferias`: the first record
with both dates set whose interval satisfies
`not (data_fim < a.data_inicio or data_inicio > a.data_fim)`; records with a
missing date are skipped. -/
def FeriasManager.conflito (data_inicio data_fim : Date) :
    List Afastamento → Option Afastamento
  | [] => none
  | a :: resto =>
    match a.data_inicio, a.data_fim with
    | some ri, some rf =>
      if ¬ (Date.lt data_fim ri ∨ Date.lt rf data_inicio) then some a
      else FeriasManager.conflito data_inicio data_fim resto
    | _, _ => FeriasManager.conflito data_inicio data_fim resto

/-- `FeriasManager.validar_ferias`. -/
def FeriasManager.validar_ferias (funcionario : Funcionario)
    (data_inicio data_fim : Date) (afastamentos : List Afastamento)
    (agora : Date) : Bool × String :=
  let dias_solicitados : Int := Date.subDays data_fim data_inicio + 1
  let dias_restantes : Int :=
    FeriasManager.calcular_dias_ferias_restantes funcionario afastamentos agora
  if dias_solicitados > dias_restantes then
    (false, msg_saldo_insuficiente dias_restantes dias_solicitados)
  else
    match FeriasManager.conflito data_inicio data_fim afastamentos with
    | some a => (false, msg_conflito a.tipo)
    | none => (true, msg_sucesso)

/-- `re.sub(r'\D', '', s)`: keep only the digit characters. -/
def stripNonDigits (s : String) : String := String.mk (s.data.filter Char.isDigit)

/-- Digit value of the character at position `i` of a digit string (the
list is total via `getD`; the callers only use it under a length check). -/
def digitAt (s : List Char) (i : Nat) : Nat := (s.getD i '0').toNat - 48

/-- `Validators.validar_cpf` (`src/utils/validators.py`).  The two weighted
sums are the source's generator expressions `sum(int(cpf[i]) * (10 - i) for
i in range(9))` and `sum(int(cpf[i]) * (11 - i) for i in range(10))`,
unrolled. -/
def Validators.validar_cpf (cpf : String) : Bool :=
  let s := (stripNonDigits cpf).data
  let d := digitAt s
  if s.length ≠ 11 then false
  else if s = List.replicate 11 (s.headD '0') then false
  else
    let soma1 : Nat :=
      d 0 * 10 + d 1 * 9 + d 2 * 8 + d 3 * 7 + d 4 * 6 +
        d 5 * 5 + d 6 * 4 + d 7 * 3 + d 8 * 2
    let digito1 : Nat := 11 - soma1 % 11
    let digito1 : Nat := if digito1 > 9 then 0 else digito1
    if d 9 ≠ digito1 then false
    else
      let soma2 : Nat :=
        d 0 * 11 + d 1 * 10 + d 2 * 9 + d 3 * 8 + d 4 * 7 +
          d 5 * 6 + d 6 * 5 + d 7 * 4 + d 8 * 3 + d 9 * 2
      let digito2 : Nat := 11 - soma2 % 11
      let digito2 : Nat := if digito2 > 9 then 0 else digito2
      if d 10 ≠ digito2 then false
      else true

/-- `Validators.formatar_cpf`: note that the source re-binds `cpf` to the
stripped digits before the length test, and returns that stripped string in
the fall-through case. -/
def Validators.formatar_cpf (cpf : String) : String :=
  let s := stripNonDigits cpf
  if s.length = 11 then
    s.take 3 ++ "." ++ (s.drop 3).take 3 ++ "." ++ (s.drop 6).take 3 ++ "-" ++
      s.drop 9
  else s

/-- `Validators.formatar_telefone`: as with `formatar_cpf`, the fall-through
case returns the stripped digit string, not the original input. -/
def Validators.formatar_telefone (telefone : String) : String :=
  let s := stripNonDigits telefone
  if s.length = 11 then
    "(" ++ s.take 2 ++ ") " ++ (s.drop 2).take 5 ++ "-" ++ s.drop 7
  else if s.length = 10 then
    "(" ++ s.take 2 ++ ") " ++ (s.drop 2).take 4 ++ "-" ++ s.drop 6
  else s

/-!  Spec-side definitions: restatements of the specification's words, to be
compared with the embedded source functions above. -/

/-- The Entitlement Calculator's accrual rule in the spec's words (§4.3):
elapsed whole calendar months `(asOf.year - hireDate.year)*12 +
(asOf.month - hireDate.month)`; 0 below the 12-month threshold, else
`floor(elapsedMonths / thresholdMonths) * daysPerPeriod` at the default
constants (12 months, 30 days). -/
def spec_accruedDays (hireDate asOf : Date) : Int :=
  let elapsedMonths : Int :=
    (asOf.year - hireDate.year) * 12 + (asOf.month - hireDate.month)
  if elapsedMonths < 12 then 0 else Int.fdiv elapsedMonths 12 * 30

/-- The spec's inclusive-interval overlap rule (§4.4 step 4): `[s1, e1]` and
`[s2, e2]` overlap iff `NOT (e1 < s2 OR s1 > e2)`. -/
def spec_overlap (s1 e1 s2 e2 : Date) : Prop :=
  ¬ (Date.lt e1 s2 ∨ Date.lt e2 s1)

instance (s1 e1 s2 e2 : Date) : Decidable (spec_overlap s1 e1 s2 e2) := by
  unfold spec_overlap; exact inferInstance

/-- No record of the list that has both dates present overlaps the candidate
interval `[di, df]` under `spec_overlap`. -/
def sem_conflito (di df : Date) (afastamentos : List Afastamento) : Prop :=
  ∀ a ∈ afastamentos, ∀ ri rf : Date,
    a.data_inicio = some ri → a.data_fim = some rf →
      ¬ spec_overlap di df ri rf

/-- First check digit exactly as the claim words it: take the remainder of
the weighted sum mod 11 and map it to 0 if the result is greater than 9,
else keep it. -/
def specLiteral_digito1 (d : Nat → Nat) : Nat :=
  let soma : Nat :=
    d 0 * 10 + d 1 * 9 + d 2 * 8 + d 3 * 7 + d 4 * 6 +
      d 5 * 5 + d 6 * 4 + d 7 * 3 + d 8 * 2
  let r : Nat := soma % 11
  if r > 9 then 0 else r

/-- Second check digit exactly as the claim words it: weights 11 down to 2
over digits 0..9 with the first check digit in position 9, remainder of the
sum mod 11, mapped to 0 if greater than 9. -/
def specLiteral_digito2 (d : Nat → Nat) (dv1 : Nat) : Nat :=
  let soma : Nat :=
    d 0 * 11 + d 1 * 10 + d 2 * 9 + d 3 * 8 + d 4 * 7 +
      d 5 * 6 + d 6 * 5 + d 7 * 4 + d 8 * 3 + dv1 * 2
  let r : Nat := soma % 11
  if r > 9 then 0 else r

/-- `validateNationalId` as claim C3 literally words it: 11 digits after
stripping, not all identical, and the digits at positions 9 and 10 equal
the two check digits of `specLiteral_digito1` / `specLiteral_digito2`. -/
def specLiteral_cpf_valido (raw : String) : Prop :=
  let s := (stripNonDigits raw).data
  let d := digitAt s
  s.length = 11 ∧ s ≠ List.replicate 11 (s.headD '0') ∧
    d 9 = specLiteral_digito1 d ∧
    d 10 = specLiteral_digito2 d (specLiteral_digito1 d)

instance (raw : String) : Decidable (specLiteral_cpf_valido raw) := by
  unfold specLiteral_cpf_valido; exact inferInstance

/-- First check digit with the subtraction the source performs: 11 minus
the remainder of the weighted sum mod 11, mapped to 0 if that result is
greater than 9, else kept. -/
def spec_digito1 (d : Nat → Nat) : Nat :=
  let soma : Nat :=
    d 0 * 10 + d 1 * 9 + d 2 * 8 + d 3 * 7 + d 4 * 6 +
      d 5 * 5 + d 6 * 4 + d 7 * 3 + d 8 * 2
  let r : Nat := 11 - soma % 11
  if r > 9 then 0 else r

/-- Second check digit with the same subtraction, weights 11 down to 2 over
digits 0..9 with the first check digit in position 9. -/
def spec_digito2 (d : Nat → Nat) (dv1 : Nat) : Nat :=
  let soma : Nat :=
    d 0 * 11 + d 1 * 10 + d 2 * 9 + d 3 * 8 + d 4 * 7 +
      d 5 * 6 + d 6 * 5 + d 7 * 4 + d 8 * 3 + dv1 * 2
  let r : Nat := 11 - soma % 11
  if r > 9 then 0 else r

/-- `validateNationalId` as claim C3 reads once the check-digit formula is
amended to subtract the remainder from 11. -/
def spec_cpf_valido (raw : String) : Prop :=
  let s := (stripNonDigits raw).data
  let d := digitAt s
  s.length = 11 ∧ s ≠ List.replicate 11 (s.headD '0') ∧
    d 9 = spec_digito1 d ∧
    d 10 = spec_digito2 d (spec_digito1 d)

instance (raw : String) : Decidable (spec_cpf_valido raw) := by
  unfold spec_cpf_valido; exact inferInstance

/-- The spec's canonical national-id layout XXX.XXX.XXX-XX over an 11-digit
string. -/
def spec_layoutNationalId (d : String) : String :=
  d.take 3 ++ "." ++ (d.drop 3).take 3 ++ "." ++ (d.drop 6).take 3 ++ "-" ++
    d.drop 9

/-- The spec's 11-digit phone layout (XX) XXXXX-XXXX. -/
def spec_layoutPhone11 (d : String) : String :=
  "(" ++ d.take 2 ++ ") " ++ (d.drop 2).take 5 ++ "-" ++ d.drop 7

/-- The spec's 10-digit phone layout (XX) XXXX-XXXX. -/
def spec_layoutPhone10 (d : String) : String :=
  "(" ++ d.take 2 ++ ") " ++ (d.drop 2).take 4 ++ "-" ++ d.drop 6

/-!  Concrete fixtures used by witnesses and counterexamples. -/

/-- An employee with no hire date recorded. -/
def funcSemAdmissao : Funcionario := ⟨none, "Ana", none⟩

/-- An employee hired on 2000-01-01. -/
def funcAntigo : Funcionario := ⟨some 1, "Bia", some ⟨2000, 1, 1⟩⟩

/-- An existing vacation record over 2024-03-15 .. 2024-03-18. -/
def afastamentoMarco : Afastamento :=
  ⟨some 7, 1, "Férias", some ⟨2024, 3, 15⟩, some ⟨2024, 3, 18⟩, "", ""⟩

/-- The evaluation date used by the concrete scenarios. -/
def hoje : Date := ⟨2024, 6, 1⟩

/-- A one-day candidate interval. -/
def diaUnico : Date := ⟨2024, 1, 1⟩

/-- The later endpoint of an inverted candidate interval. -/
def diaDepois : Date := ⟨2024, 5, 10⟩

/-- The earlier endpoint of an inverted candidate interval. -/
def diaAntes : Date := ⟨2024, 5, 1⟩

/-- Candidate interval start 2024-03-10 (the spec's overlap example). -/
def candidatoInicio : Date := ⟨2024, 3, 10⟩

/-- Candidate interval end 2024-03-20 (the spec's overlap example). -/
def candidatoFim : Date := ⟨2024, 3, 20⟩

/-- The record list of the concrete overlap scenario. -/
def afastamentosExistentes : List Afastamento := [afastamentoMarco]

/-- A national id with correct check digits (an ordinary test fixture). -/
def cpfValido : String := "52998224725"

/-- An input whose digit count (4) matches no expected length and which
contains punctuation. -/
def entradaComHifen : String := "12-34"

/-!  Helper lemmas. -/

lemma dias_disponiveis_nonneg (f : Funcionario) (agora : Date) :
    0 ≤ FeriasManager.calcular_dias_ferias_disponiveis f agora := by
  unfold FeriasManager.calcular_dias_ferias_disponiveis
  cases f.data_admissao with
  | none => exact le_refl 0
  | some adm =>
    simp only
    split
    · exact le_refl 0
    · next h =>
      have h0 : (0 : Int) ≤ (agora.year - adm.year) * 12 + (agora.month - adm.month) := by
        unfold MESES_PARA_FERIAS at h; omega
      exact mul_nonneg (Int.fdiv_nonneg h0 (by norm_num [MESES_PARA_FERIAS]))
        (by norm_num [DIAS_FERIAS_ANUAL])

/-!  The claims. -/

/-- Claim C4: for every hire date and evaluation date, the accrued-days
function equals the spec's formula (elapsed whole calendar months, 0 below
the 12-month threshold, else `floor(months/12) * 30`), is non-negative, is
a multiple of 30, ignores the day-of-month of both dates, and meets the
spec's three worked examples. -/
theorem C4_dias_disponiveis (i : Option Int) (nome : String) (adm agora : Date) :
    FeriasManager.calcular_dias_ferias_disponiveis ⟨i, nome, some adm⟩ agora
      = spec_accruedDays adm agora
    ∧ 0 ≤ FeriasManager.calcular_dias_ferias_disponiveis ⟨i, nome, some adm⟩ agora
    ∧ (∃ k : Int,
        FeriasManager.calcular_dias_ferias_disponiveis ⟨i, nome, some adm⟩ agora
          = 30 * k)
    ∧ (∀ d d' : Int,
        FeriasManager.calcular_dias_ferias_disponiveis
            ⟨i, nome, some ⟨adm.year, adm.month, d⟩⟩ ⟨agora.year, agora.month, d'⟩
          = FeriasManager.calcular_dias_ferias_disponiveis ⟨i, nome, some adm⟩ agora)
    ∧ FeriasManager.calcular_dias_ferias_disponiveis
        ⟨i, nome, some ⟨2023, 1, 15⟩⟩ ⟨2023, 12, 15⟩ = 0
    ∧ FeriasManager.calcular_dias_ferias_disponiveis
        ⟨i, nome, some ⟨2023, 1, 15⟩⟩ ⟨2024, 1, 15⟩ = 30
    ∧ FeriasManager.calcular_dias_ferias_disponiveis
        ⟨i, nome, some ⟨2023, 1, 15⟩⟩ ⟨2025, 1, 20⟩ = 60 := by
  refine ⟨rfl, dias_disponiveis_nonneg _ _, ?_, fun d d' => rfl, rfl, rfl, rfl⟩
  unfold FeriasManager.calcular_dias_ferias_disponiveis
  simp only
  split
  · exact ⟨0, rfl⟩
  · exact ⟨Int.fdiv ((agora.year - adm.year) * 12 + (agora.month - adm.month))
      MESES_PARA_FERIAS, mul_comm _ _⟩

/-- Claim C5: the remaining-days function is literally
`max 0 (accrued - consumed)` and is therefore never negative, however large
the consumed total is. -/
theorem C5_dias_restantes (f : Funcionario) (afastamentos : List Afastamento)
    (agora : Date) :
    FeriasManager.calcular_dias_ferias_restantes f afastamentos agora
      = max 0
          (FeriasManager.calcular_dias_ferias_disponiveis f agora -
            FeriasManager.calcular_dias_ferias_usados f afastamentos)
    ∧ 0 ≤ FeriasManager.calcular_dias_ferias_restantes f afastamentos agora := by
  constructor
  · rfl
  · unfold FeriasManager.calcular_dias_ferias_restantes
    exact le_max_left 0 _

lemma usados_foldl (afastamentos : List Afastamento) (acc : Int) :
    afastamentos.foldl
        (fun dias_usados a =>
          if a.tipo = "Férias" then dias_usados + a.dias_afastamento
          else dias_usados) acc
      = acc + ((afastamentos.filter fun a => a.tipo = "Férias").map
          Afastamento.dias_afastamento).sum := by
  induction afastamentos generalizing acc with
  | nil => simp
  | cons a resto ih =>
    by_cases h : a.tipo = "Férias"
    · simp [List.foldl_cons, List.filter_cons, h, ih, add_assoc]
    · simp [List.foldl_cons, List.filter_cons, h, ih]

/-- Claim C6: the consumed-days function sums `dias_afastamento` over
exactly the records whose kind is the vacation kind; every other kind is
filtered out and contributes nothing. -/
theorem C6_dias_usados (f : Funcionario) (afastamentos : List Afastamento) :
    FeriasManager.calcular_dias_ferias_usados f afastamentos
      = ((afastamentos.filter fun a => a.tipo = "Férias").map
          Afastamento.dias_afastamento).sum := by
  unfold FeriasManager.calcular_dias_ferias_usados
  simpa using usados_foldl afastamentos 0

/-- Claim C7: `dias_afastamento` is the inclusive day count
`(end - start).days + 1` when both dates are present, 0 when either date is
absent, and in particular 1 when start and end are the same date. -/
theorem C7_dias_afastamento (i : Option Int) (fid : Int) (tipo : String)
    (di df d0 : Date) (odi odf : Option Date) (motivo obs : String) :
    Afastamento.dias_afastamento ⟨i, fid, tipo, some di, some df, motivo, obs⟩
      = Date.subDays df di + 1
    ∧ Afastamento.dias_afastamento ⟨i, fid, tipo, none, odf, motivo, obs⟩ = 0
    ∧ Afastamento.dias_afastamento ⟨i, fid, tipo, odi, none, motivo, obs⟩ = 0
    ∧ Afastamento.dias_afastamento ⟨i, fid, tipo, some d0, some d0, motivo, obs⟩
        = 1 := by
  refine ⟨rfl, rfl, ?_, ?_⟩
  · cases odi <;> rfl
  · show Date.subDays d0 d0 + 1 = 1
    unfold Date.subDays
    omega

/-- Claim C8: the next-eligibility function returns the evaluation date
itself once the elapsed months reach the threshold, otherwise the hire date
plus a flat `12 * 30` days, and `none` when the hire date is absent; the
flat addition is not exact calendar-month arithmetic (hire 2023-01-15 plus
360 days is 2024-01-10, not 2024-01-15). -/
theorem C8_proxima_data (i : Option Int) (nome : String) (adm agora : Date) :
    FeriasManager.obter_proxima_data_ferias ⟨i, nome, some adm⟩ agora
      = some
          (if (agora.year - adm.year) * 12 + (agora.month - adm.month) ≥
              MESES_PARA_FERIAS
           then agora
           else Date.addDays adm (MESES_PARA_FERIAS * 30))
    ∧ FeriasManager.obter_proxima_data_ferias ⟨i, nome, none⟩ agora = none
    ∧ Date.addDays ⟨2023, 1, 15⟩ (MESES_PARA_FERIAS * 30) ≠ Date.mk 2024 1 15
    ∧ Date.addDays ⟨2023, 1, 15⟩ (MESES_PARA_FERIAS * 30) = Date.mk 2024 1 10 := by
  refine ⟨?_, rfl, by decide, by decide⟩
  unfold FeriasManager.obter_proxima_data_ferias
  simp only
  split <;> rfl

/-- Claim C1: whenever the requested inclusive day count exceeds the
remaining balance, `validar_ferias` fails with the insufficient-balance
message, and that message cites both the remaining and the requested
numbers.  The function takes no leave-kind argument at all, so the
rejection applies to a candidate request of any kind: the theorem
quantifies over every input the decision reads. -/
theorem C1_saldo_insuficiente (f : Funcionario) (data_inicio data_fim : Date)
    (afastamentos : List Afastamento) (agora : Date)
    (h : Date.subDays data_fim data_inicio + 1 >
        FeriasManager.calcular_dias_ferias_restantes f afastamentos agora) :
    FeriasManager.validar_ferias f data_inicio data_fim afastamentos agora
      = (false,
          msg_saldo_insuficiente
            (FeriasManager.calcular_dias_ferias_restantes f afastamentos agora)
            (Date.subDays data_fim data_inicio + 1))
    ∧ ∃ antes entre depois : String,
        msg_saldo_insuficiente
            (FeriasManager.calcular_dias_ferias_restantes f afastamentos agora)
            (Date.subDays data_fim data_inicio + 1)
          = antes ++
              toString
                (FeriasManager.calcular_dias_ferias_restantes f afastamentos agora) ++
              entre ++ toString (Date.subDays data_fim data_inicio + 1) ++ depois := by
  constructor
  · unfold FeriasManager.validar_ferias
    simp only
    rw [if_pos h]
  · exact ⟨"Funcionário tem apenas ",
      " dias de férias disponíveis, mas solicitou ", " dias.", rfl⟩

/-- Witness for C1: an employee with no hire date has 0 remaining days, and
a one-day request is rejected with the message citing both numbers. -/
theorem C1_saldo_insuficiente_witness :
    Date.subDays diaUnico diaUnico + 1 >
        FeriasManager.calcular_dias_ferias_restantes funcSemAdmissao [] hoje
    ∧ FeriasManager.validar_ferias funcSemAdmissao diaUnico diaUnico [] hoje
        = (false,
            msg_saldo_insuficiente
              (FeriasManager.calcular_dias_ferias_restantes funcSemAdmissao [] hoje)
              (Date.subDays diaUnico diaUnico + 1)) :=
  ⟨by decide,
    (C1_saldo_insuficiente funcSemAdmissao diaUnico diaUnico [] hoje (by decide)).1⟩

/-- Claim C10: `validar_ferias` accepts inverted candidate intervals.  If
the candidate end is strictly before the candidate start (as day numbers),
the requested day count is zero or negative, so it never exceeds the
never-negative remaining balance; with no existing records no overlap is
tested and the validator returns ok — for any employee and any evaluation
date, so end-before-start is never by itself a ground for rejection. -/
theorem C10_intervalo_invertido (f : Funcionario) (data_inicio data_fim : Date)
    (agora : Date) (h : data_fim.toRataDie < data_inicio.toRataDie) :
    Date.subDays data_fim data_inicio + 1 ≤ 0
    ∧ FeriasManager.validar_ferias f data_inicio data_fim [] agora
        = (true, msg_sucesso) := by
  have hsol : Date.subDays data_fim data_inicio + 1 ≤ 0 := by
    unfold Date.subDays
    omega
  have hrest : 0 ≤ FeriasManager.calcular_dias_ferias_restantes f [] agora := by
    unfold FeriasManager.calcular_dias_ferias_restantes
    exact le_max_left 0 _
  refine ⟨hsol, ?_⟩
  unfold FeriasManager.validar_ferias
  simp only
  rw [if_neg (by omega :
    ¬ Date.subDays data_fim data_inicio + 1 >
        FeriasManager.calcular_dias_ferias_restantes f [] agora)]
  rfl

/-- Witness for C10: a candidate running from 2024-05-10 back to 2024-05-01
is accepted for an employee with no accrued balance at all. -/
theorem C10_intervalo_invertido_witness :
    Date.toRataDie diaAntes < Date.toRataDie diaDepois
    ∧ FeriasManager.validar_ferias funcSemAdmissao diaDepois diaAntes [] hoje
        = (true, msg_sucesso) :=
  ⟨by decide,
    (C10_intervalo_invertido funcSemAdmissao diaDepois diaAntes hoje (by decide)).2⟩

lemma sem_conflito_nil (di df : Date) : sem_conflito di df [] := by
  intro a ha
  cases ha

lemma sem_conflito_cons {di df : Date} {a : Afastamento}
    {resto : List Afastamento} :
    sem_conflito di df (a :: resto) ↔
      (∀ ri rf : Date, a.data_inicio = some ri → a.data_fim = some rf →
          ¬ spec_overlap di df ri rf)
      ∧ sem_conflito di df resto := by
  unfold sem_conflito
  constructor
  · exact fun h =>
      ⟨h a (List.mem_cons_self a resto), fun b hb => h b (List.mem_cons_of_mem a hb)⟩
  · rintro ⟨h1, h2⟩ b hb
    rcases List.mem_cons.mp hb with hb' | hb'
    · subst hb'
      exact h1
    · exact h2 b hb'

lemma conflito_eq_none {di df : Date} {afastamentos : List Afastamento} :
    FeriasManager.conflito di df afastamentos = none ↔
      sem_conflito di df afastamentos := by
  induction afastamentos with
  | nil => exact ⟨fun _ => sem_conflito_nil di df, fun _ => rfl⟩
  | cons a resto ih =>
    rw [sem_conflito_cons]
    cases hdi : a.data_inicio with
    | none =>
      have heq : FeriasManager.conflito di df (a :: resto) =
          FeriasManager.conflito di df resto := by
        simp only [FeriasManager.conflito]
        rw [hdi]
      rw [heq, ih]
      constructor
      · intro h
        refine ⟨fun ri rf h1 _ => ?_, h⟩
        exact Option.noConfusion h1
      · exact fun h => h.2
    | some ri0 =>
      cases hdf : a.data_fim with
      | none =>
        have heq : FeriasManager.conflito di df (a :: resto) =
            FeriasManager.conflito di df resto := by
          simp only [FeriasManager.conflito]
          rw [hdi, hdf]
        rw [heq, ih]
        constructor
        · intro h
          refine ⟨fun ri rf _ h2 => ?_, h⟩
          exact Option.noConfusion h2
        · exact fun h => h.2
      | some rf0 =>
        have heq : FeriasManager.conflito di df (a :: resto) =
            if ¬ (Date.lt df ri0 ∨ Date.lt rf0 di) then some a
            else FeriasManager.conflito di df resto := by
          simp only [FeriasManager.conflito]
          rw [hdi, hdf]
        rw [heq]
        by_cases hov : Date.lt df ri0 ∨ Date.lt rf0 di
        · rw [if_neg (not_not_intro hov), ih]
          constructor
          · intro h
            refine ⟨fun ri rf h1 h2 => ?_, h⟩
            injection h1 with e1
            injection h2 with e2
            subst e1
            subst e2
            exact fun hsp => hsp hov
          · exact fun h => h.2
        · rw [if_pos hov]
          constructor
          · intro h
            exact Option.noConfusion h
          · rintro ⟨h1, _⟩
            exact absurd hov (h1 ri0 rf0 rfl rfl)

lemma conflito_eq_some {di df : Date} (afastamentos : List Afastamento)
    {b : Afastamento} :
    FeriasManager.conflito di df afastamentos = some b →
      b ∈ afastamentos ∧ ∃ bi bf : Date,
        b.data_inicio = some bi ∧ b.data_fim = some bf ∧
          spec_overlap di df bi bf := by
  induction afastamentos with
  | nil => exact fun h => Option.noConfusion h
  | cons a resto ih =>
    intro h
    cases hdi : a.data_inicio with
    | none =>
      have heq : FeriasManager.conflito di df (a :: resto) =
          FeriasManager.conflito di df resto := by
        simp only [FeriasManager.conflito]
        rw [hdi]
      rw [heq] at h
      obtain ⟨hmem, hex⟩ := ih h
      exact ⟨List.mem_cons_of_mem a hmem, hex⟩
    | some ri0 =>
      cases hdf : a.data_fim with
      | none =>
        have heq : FeriasManager.conflito di df (a :: resto) =
            FeriasManager.conflito di df resto := by
          simp only [FeriasManager.conflito]
          rw [hdi, hdf]
        rw [heq] at h
        obtain ⟨hmem, hex⟩ := ih h
        exact ⟨List.mem_cons_of_mem a hmem, hex⟩
      | some rf0 =>
        have heq : FeriasManager.conflito di df (a :: resto) =
            if ¬ (Date.lt df ri0 ∨ Date.lt rf0 di) then some a
            else FeriasManager.conflito di df resto := by
          simp only [FeriasManager.conflito]
          rw [hdi, hdf]
        rw [heq] at h
        by_cases hov : Date.lt df ri0 ∨ Date.lt rf0 di
        · rw [if_neg (not_not_intro hov)] at h
          obtain ⟨hmem, hex⟩ := ih h
          exact ⟨List.mem_cons_of_mem a hmem, hex⟩
        · rw [if_pos hov] at h
          injection h with hb
          subst hb
          exact ⟨List.mem_cons_self a resto, ri0, rf0, hdi, hdf, hov⟩

/-- Claim C2: past the balance check, `validar_ferias` succeeds exactly when
no existing record with both dates present overlaps the candidate under the
spec's inclusive rule (records with a missing date are skipped); on failure
the reason names the conflicting record's kind.  The trailing conjuncts
check the spec's concrete instances of the rule: the worked overlap example,
the adjacent non-overlapping example, and a candidate equal to an existing
interval. -/
theorem C2_sobreposicao (f : Funcionario) (data_inicio data_fim : Date)
    (afastamentos : List Afastamento) (agora : Date)
    (h : ¬ Date.subDays data_fim data_inicio + 1 >
        FeriasManager.calcular_dias_ferias_restantes f afastamentos agora) :
    ((FeriasManager.validar_ferias f data_inicio data_fim afastamentos agora).1
        = true ↔ sem_conflito data_inicio data_fim afastamentos)
    ∧ (sem_conflito data_inicio data_fim afastamentos →
        FeriasManager.validar_ferias f data_inicio data_fim afastamentos agora
          = (true, msg_sucesso))
    ∧ (¬ sem_conflito data_inicio data_fim afastamentos →
        ∃ b ∈ afastamentos,
          (∃ bi bf : Date, b.data_inicio = some bi ∧ b.data_fim = some bf ∧
              spec_overlap data_inicio data_fim bi bf)
          ∧ FeriasManager.validar_ferias f data_inicio data_fim afastamentos agora
              = (false, msg_conflito b.tipo))
    ∧ spec_overlap ⟨2024, 3, 10⟩ ⟨2024, 3, 20⟩ ⟨2024, 3, 15⟩ ⟨2024, 3, 18⟩
    ∧ ¬ spec_overlap ⟨2024, 1, 1⟩ ⟨2024, 1, 5⟩ ⟨2024, 1, 6⟩ ⟨2024, 1, 10⟩
    ∧ spec_overlap ⟨2024, 3, 10⟩ ⟨2024, 3, 20⟩ ⟨2024, 3, 10⟩ ⟨2024, 3, 20⟩ := by
  have hval : FeriasManager.validar_ferias f data_inicio data_fim afastamentos agora
      = match FeriasManager.conflito data_inicio data_fim afastamentos with
        | some a => (false, msg_conflito a.tipo)
        | none => (true, msg_sucesso) := by
    unfold FeriasManager.validar_ferias
    simp only
    rw [if_neg h]
  refine ⟨?_, ?_, ?_, by decide, by decide, by decide⟩
  · rw [hval]
    cases hc : FeriasManager.conflito data_inicio data_fim afastamentos with
    | none => simpa using conflito_eq_none.mp hc
    | some b =>
      constructor
      · intro hfalse
        simp at hfalse
      · intro hsem
        have hnone := conflito_eq_none.mpr hsem
        rw [hc] at hnone
        exact Option.noConfusion hnone
  · intro hsem
    rw [hval, conflito_eq_none.mpr hsem]
  · intro hnsem
    cases hc : FeriasManager.conflito data_inicio data_fim afastamentos with
    | none => exact absurd (conflito_eq_none.mp hc) hnsem
    | some b =>
      obtain ⟨hmem, hex⟩ := conflito_eq_some afastamentos hc
      refine ⟨b, hmem, hex, ?_⟩
      rw [hval, hc]

/-- Witness for C2: an employee hired in 2000 with one existing vacation
record over 2024-03-15..18, candidate 2024-03-10..20: the balance check
passes and the theorem's conclusion holds at these inputs. -/
theorem C2_sobreposicao_witness :
    ¬ Date.subDays candidatoFim candidatoInicio + 1 >
        FeriasManager.calcular_dias_ferias_restantes funcAntigo
          afastamentosExistentes hoje
    ∧ (((FeriasManager.validar_ferias funcAntigo candidatoInicio candidatoFim
            afastamentosExistentes hoje).1 = true
          ↔ sem_conflito candidatoInicio candidatoFim afastamentosExistentes)
      ∧ (sem_conflito candidatoInicio candidatoFim afastamentosExistentes →
          FeriasManager.validar_ferias funcAntigo candidatoInicio candidatoFim
              afastamentosExistentes hoje
            = (true, msg_sucesso))
      ∧ (¬ sem_conflito candidatoInicio candidatoFim afastamentosExistentes →
          ∃ b ∈ afastamentosExistentes,
            (∃ bi bf : Date, b.data_inicio = some bi ∧ b.data_fim = some bf ∧
                spec_overlap candidatoInicio candidatoFim bi bf)
            ∧ FeriasManager.validar_ferias funcAntigo candidatoInicio candidatoFim
                  afastamentosExistentes hoje
                = (false, msg_conflito b.tipo))
      ∧ spec_overlap ⟨2024, 3, 10⟩ ⟨2024, 3, 20⟩ ⟨2024, 3, 15⟩ ⟨2024, 3, 18⟩
      ∧ ¬ spec_overlap ⟨2024, 1, 1⟩ ⟨2024, 1, 5⟩ ⟨2024, 1, 6⟩ ⟨2024, 1, 10⟩
      ∧ spec_overlap ⟨2024, 3, 10⟩ ⟨2024, 3, 20⟩ ⟨2024, 3, 10⟩ ⟨2024, 3, 20⟩) :=
  ⟨by decide,
    C2_sobreposicao funcAntigo candidatoInicio candidatoFim afastamentosExistentes
      hoje (by decide)⟩

/-- Claim C3 counterexample: on the national id "52998224725" the source
validator returns true, while the claim's literal check-digit rule (the
remainder of the weighted sum mod 11, kept unless greater than 9, with no
subtraction from 11) rejects it — so the claimed iff fails at this
input. -/
theorem C3_contraexemplo :
    Validators.validar_cpf cpfValido = true ∧ ¬ specLiteral_cpf_valido cpfValido := by
  decide

/-- Claim C3 (amended): `validar_cpf` returns true iff after stripping all
non-digit characters exactly 11 digits remain, they are not all identical,
and the digits at positions 9 and 10 equal the two check digits computed as
11 minus the weighted-sum remainder mod 11, mapped to 0 when greater than 9
(the second sum taking the first check digit in position 9); and every
all-identical-digit 11-character string is rejected. -/
theorem C3_validar_cpf (raw : String) :
    (Validators.validar_cpf raw = true ↔ spec_cpf_valido raw)
    ∧ ∀ j : Fin 10,
        Validators.validar_cpf
            (String.mk (List.replicate 11 (Char.ofNat (48 + j.val)))) = false := by
  constructor
  · simp only [Validators.validar_cpf, spec_cpf_valido, spec_digito1, spec_digito2]
    set s := (stripNonDigits raw).data with hsdef
    set d := digitAt s with hddef
    set soma1 := d 0 * 10 + d 1 * 9 + d 2 * 8 + d 3 * 7 + d 4 * 6 +
      d 5 * 5 + d 6 * 4 + d 7 * 3 + d 8 * 2 with hsoma1
    set D1 := (if 11 - soma1 % 11 > 9 then 0 else 11 - soma1 % 11) with hD1v
    by_cases h1 : s.length = 11
    · by_cases h2 : s = List.replicate 11 (s.headD '0')
      · rw [if_neg (not_not_intro h1), if_pos h2]
        exact iff_of_false (by simp) fun hR => hR.2.1 h2
      · by_cases h9 : d 9 = D1
        · rw [h9]
          set soma2 := d 0 * 11 + d 1 * 10 + d 2 * 9 + d 3 * 8 + d 4 * 7 +
            d 5 * 6 + d 6 * 5 + d 7 * 4 + d 8 * 3 + D1 * 2 with hsoma2
          set D2 := (if 11 - soma2 % 11 > 9 then 0 else 11 - soma2 % 11) with hD2v
          by_cases h10 : d 10 = D2
          · simp [h1, h2, h10]
          · simp [h1, h2, h10]
        · simp [h1, h2, h9]
    · simp [h1]
  · decide

/-- Claim C9 counterexample: on the input "12-34", whose digit count (4)
matches no expected length, the national-id formatter does not return the
input unchanged — it returns the digit-stripped string "1234". -/
theorem C9_contraexemplo :
    (stripNonDigits entradaComHifen).length ≠ 11
    ∧ Validators.formatar_cpf entradaComHifen ≠ entradaComHifen
    ∧ Validators.formatar_cpf entradaComHifen = stripNonDigits entradaComHifen := by
  decide

/-- Claim C9 (amended): on a digit-count mismatch the formatters return the
digit-stripped input — so inputs consisting only of digits pass through
unchanged — and on a match they return the canonical punctuated layouts
(11 digits for the national id; 11 or 10 digits for the phone, with layouts
that differ by length). -/
theorem C9_formatar (s : String) :
    Validators.formatar_cpf s =
      (if (stripNonDigits s).length = 11
       then spec_layoutNationalId (stripNonDigits s)
       else stripNonDigits s)
    ∧ Validators.formatar_telefone s =
      (if (stripNonDigits s).length = 11
       then spec_layoutPhone11 (stripNonDigits s)
       else if (stripNonDigits s).length = 10
            then spec_layoutPhone10 (stripNonDigits s)
            else stripNonDigits s) :=
  ⟨rfl, rfl⟩

end GestaoRH
